import Mathlib

/-!
Verification of the Rollbar client library's response-normalization layer
(`crates/client/src/lib.rs`).

The HTTP transport is out of scope; we embed the pure part of the pipeline:
given the JSON body of a 2xx response, the envelope decoder (`get_result`)
and the endpoint-specific shape normalization
(`resolve_item_id_by_counter`, `get_latest_instance`).

JSON values are modelled by an inductive `Json`; serde's derived
deserializers for the payload types are embedded as `Option`-returning
decoders, with serde's documented behavior for `Option` fields (missing
key or `null` decode to `None`), `#[serde(untagged)]` enums (variants are
tried in declaration order, first success wins, unknown fields of struct
shapes are ignored), and Rust integer widths (`u8` / `u64` reject
out-of-range JSON integers). JSON numbers are modelled as integers, which
is the only numeric form these decoders accept.
-/

/-- JSON values (numbers restricted to integers, the only numeric form the
embedded decoders consume). -/
inductive Json where
  | null : Json
  | bool : Bool → Json
  | num : Int → Json
  | str : String → Json
  | arr : List Json → Json
  | obj : List (String × Json) → Json
deriving Repr

/-- First binding of `key` in an object's field list. -/
def lookupField : List (String × Json) → String → Option Json
  | [], _ => none
  | (k, v) :: rest, key => if k = key then some v else lookupField rest key

/-- serde deserialization of a Rust `u64` from a JSON value:
an integer in `[0, 2^64)`. -/
def decodeU64 : Json → Option Nat
  | .num n => if 0 ≤ n ∧ n < 2 ^ 64 then some n.toNat else none
  | _ => none

/-- serde deserialization of a Rust `u8` from a JSON value:
an integer in `[0, 256)`. -/
def decodeU8 : Json → Option Nat
  | .num n => if 0 ≤ n ∧ n < 256 then some n.toNat else none
  | _ => none

/-- serde deserialization of a Rust `String`. -/
def decodeString : Json → Option String
  | .str s => some s
  | _ => none

/-- serde deserialization of `serde_json::Value`: accepts any JSON value. -/
def decodeValue : Json → Option Json := fun j => some j

/-- serde deserialization of an `Option<T>` struct field: a missing key or a
`null` value decodes to `none`; a present non-null value must decode as `T`. -/
def decodeOptField (dec : Json → Option α) (fields : List (String × Json))
    (key : String) : Option (Option α) :=
  match lookupField fields key with
  | none => some none
  | some .null => some none
  | some v => (dec v).map some

/-- serde deserialization of a required struct field. -/
def decodeReqField (dec : Json → Option α) (fields : List (String × Json))
    (key : String) : Option α :=
  lookupField fields key >>= dec

/-- `pub struct ItemId(pub u64)` -/
structure ItemId where
  val : Nat
deriving Repr, DecidableEq

/-- `pub struct Item` (lib.rs lines 19-28). -/
structure Item where
  id : Nat
  project_id : Nat
  counter : Nat
  title : String
  status : String
  environment : Option String
  total_occurrences : Option Nat
deriving Repr, DecidableEq

/-- serde's derived deserializer for `Item`: the five non-`Option` fields are
required, `environment` and `total_occurrences` are optional, unknown fields
are ignored (no `deny_unknown_fields`). -/
def decodeItem : Json → Option Item
  | .obj fields => do
      let id ← decodeReqField decodeU64 fields "id"
      let project_id ← decodeReqField decodeU64 fields "project_id"
      let counter ← decodeReqField decodeU64 fields "counter"
      let title ← decodeReqField decodeString fields "title"
      let status ← decodeReqField decodeString fields "status"
      let environment ← decodeOptField decodeString fields "environment"
      let total_occurrences ← decodeOptField decodeU64 fields "total_occurrences"
      pure ⟨id, project_id, counter, title, status, environment, total_occurrences⟩
  | _ => none

/-- `enum ItemByCounterResult` (lib.rs lines 30-38): untagged union of a full
`Item` record and a redirect stub `{ itemId: u64 }`. -/
inductive ItemByCounterResult where
  | item : Item → ItemByCounterResult
  | redirect : Nat → ItemByCounterResult
deriving Repr, DecidableEq

/-- The redirect-stub shape of `ItemByCounterResult`: a JSON object with a
required `itemId` field; unknown fields are ignored. -/
def decodeRedirect : Json → Option Nat
  | .obj fields => decodeReqField decodeU64 fields "itemId"
  | _ => none

/-- serde's `#[serde(untagged)]` deserializer for `ItemByCounterResult`:
variants are tried in declaration order, so the `Item` shape is attempted
before the redirect stub. -/
def decodeItemByCounterResult (j : Json) : Option ItemByCounterResult :=
  match decodeItem j with
  | some it => some (.item it)
  | none => (decodeRedirect j).map .redirect

/-- `pub struct ItemInstance` (lib.rs lines 40-49): required `id`,
optional (`#[serde(default)]`) `timestamp`, `body`, `data`. -/
structure ItemInstance where
  id : Nat
  timestamp : Option Nat
  body : Option Json
  data : Option Json
deriving Repr

/-- serde's derived deserializer for `ItemInstance`. -/
def decodeItemInstance : Json → Option ItemInstance
  | .obj fields => do
      let id ← decodeReqField decodeU64 fields "id"
      let timestamp ← decodeOptField decodeU64 fields "timestamp"
      let body ← decodeOptField decodeValue fields "body"
      let data ← decodeOptField decodeValue fields "data"
      pure ⟨id, timestamp, body, data⟩
  | _ => none

/-- `enum ItemInstanceResult` (lib.rs lines 51-56): untagged union of a bare
list of instances and an object wrapping the list under `instances`. -/
inductive ItemInstanceResult where
  | list : List ItemInstance → ItemInstanceResult
  | wrapped : List ItemInstance → ItemInstanceResult

/-- serde deserialization of `Vec<T>`: a JSON array whose elements all
decode as `T`. -/
def decodeVec (dec : Json → Option α) : Json → Option (List α)
  | .arr xs => xs.mapM dec
  | _ => none

/-- serde's `#[serde(untagged)]` deserializer for `ItemInstanceResult`:
the bare-list shape is attempted before the wrapped-list shape. -/
def decodeItemInstanceResult (j : Json) : Option ItemInstanceResult :=
  match decodeVec decodeItemInstance j with
  | some v => some (.list v)
  | none =>
      match j with
      | .obj fields =>
          (decodeReqField (decodeVec decodeItemInstance) fields "instances").map .wrapped
      | _ => none

/-- `struct ApiEnvelope<T>` (lib.rs lines 12-17): `err: u8`,
`result: Option<T>`, `message: Option<String>`. -/
structure ApiEnvelope (T : Type) where
  err : Nat
  result : Option T
  message : Option String

/-- serde's derived deserializer for `ApiEnvelope<T>`: `err` is a required
`u8`, `result` and `message` are optional. -/
def decodeEnvelope (dec : Json → Option T) : Json → Option (ApiEnvelope T)
  | .obj fields => do
      let err ← decodeReqField decodeU8 fields "err"
      let result ← decodeOptField dec fields "result"
      let message ← decodeOptField decodeString fields "message"
      pure ⟨err, result, message⟩
  | _ => none

/-- The failures `get_result` can produce after a successful HTTP exchange,
each tagged with the operation label `op` (lib.rs lines 98-113):
the body fails to decode as the envelope, the service reports an error
(`err != 0`), or the envelope claims success but carries no `result`. -/
inductive RbError where
  | decodeFailed : String → RbError
  | serviceError : String → String → RbError
  | missingResult : String → RbError
deriving Repr, DecidableEq

/-- The message text each failure carries in the source (`with_context` /
`bail!` format strings). -/
def RbError.render : RbError → String
  | .decodeFailed op => "failed to decode " ++ op ++ " response"
  | .serviceError op msg => "rollbar " ++ op ++ ": " ++ msg
  | .missingResult op => op ++ " response is missing result"

/-- The pure part of `RollbarClient::get_result` (lib.rs lines 82-113),
applied to the JSON body of a 2xx response: decode the envelope, fail with
the service message (or a generic fallback) when `err != 0`, fail with a
distinct missing-result error when `result` is absent, otherwise return the
payload unchanged. -/
def get_result (dec : Json → Option T) (body : Json) (op : String) :
    Except RbError T :=
  match decodeEnvelope dec body with
  | none => .error (.decodeFailed op)
  | some envelope =>
      if envelope.err ≠ 0 then
        .error (.serviceError op (envelope.message.getD "unknown error from Rollbar"))
      else
        match envelope.result with
        | none => .error (.missingResult op)
        | some r => .ok r

/-- `RollbarClient::resolve_item_id_by_counter` (lib.rs lines 115-126),
applied to the response body: decode an `ItemByCounterResult` and extract
the identifier from whichever shape matched. -/
def resolve_item_id_by_counter (body : Json) : Except RbError ItemId :=
  (get_result decodeItemByCounterResult body "item_by_counter").map fun result =>
    match result with
    | .item item => ⟨item.id⟩
    | .redirect item_id => ⟨item_id⟩

/-- `RollbarClient::get_latest_instance` (lib.rs lines 134-144), applied to
the response body: decode an `ItemInstanceResult`, unwrap to the list, and
`pop` the last element (`none` when the list is empty). -/
def get_latest_instance (body : Json) : Except RbError (Option ItemInstance) :=
  (get_result decodeItemInstanceResult body "item instances").map fun result =>
    let instances := match result with
      | .list v => v
      | .wrapped v => v
    instances.getLast?

/-- A successful envelope (`err = 0`) wrapping a result payload, as delivered
by the service. -/
def okEnvelope (result : Json) : Json :=
  .obj [("err", .num 0), ("result", result)]

lemma decodeEnvelope_okEnvelope {T : Type} (dec : Json → Option T) (r : Json)
    (hnull : r ≠ Json.null) :
    decodeEnvelope dec (okEnvelope r)
      = (dec r).map (fun v => ⟨0, some v, none⟩) := by
  cases r <;>
    simp [decodeEnvelope, okEnvelope, decodeReqField, decodeOptField,
      lookupField, decodeU8, Option.map, Option.bind] <;>
    first
      | rfl
      | exact absurd rfl hnull
      | (cases dec _ <;> rfl)

lemma get_result_okEnvelope_some {T : Type} (dec : Json → Option T) (r : Json)
    (op : String) (v : T) (hnull : r ≠ Json.null) (h : dec r = some v) :
    get_result dec (okEnvelope r) op = .ok v := by
  simp [get_result, decodeEnvelope_okEnvelope dec r hnull, h]

/-- C1: a payload satisfying the full `Item` shape resolves to its `id`
field, even when a redirect identifier field is also present: the untagged
decoder attempts the `Item` variant first. -/
theorem resolve_by_counter_prefers_full_item (j : Json) (it : Item)
    (h : decodeItem j = some it) :
    resolve_item_id_by_counter (okEnvelope j) = .ok ⟨it.id⟩ := by
  have hnull : j ≠ Json.null := by
    intro hj; rw [hj] at h; exact Option.noConfusion h
  have hres : decodeItemByCounterResult j = some (.item it) := by
    simp [decodeItemByCounterResult, h]
  simp [resolve_item_id_by_counter,
    get_result_okEnvelope_some decodeItemByCounterResult j _ _ hnull hres]
  rfl

theorem resolve_by_counter_prefers_full_item_witness :
    resolve_item_id_by_counter (okEnvelope (.obj [("id", .num 10),
      ("project_id", .num 1), ("counter", .num 5), ("title", .str "t"),
      ("status", .str "open"), ("itemId", .num 99)])) = .ok ⟨10⟩ :=
  resolve_by_counter_prefers_full_item _ ⟨10, 1, 5, "t", "open", none, none⟩ rfl

/-- C2: a payload that does not satisfy the full `Item` shape but carries
the redirect identifier field `itemId` resolves to that identifier; no
`Item`-only field is consulted. -/
theorem resolve_by_counter_redirect_stub (j : Json) (n : Nat)
    (hitem : decodeItem j = none) (hred : decodeRedirect j = some n) :
    resolve_item_id_by_counter (okEnvelope j) = .ok ⟨n⟩ := by
  have hnull : j ≠ Json.null := by
    intro hj; rw [hj] at hred; exact Option.noConfusion hred
  have hres : decodeItemByCounterResult j = some (.redirect n) := by
    simp [decodeItemByCounterResult, hitem, hred]
  simp [resolve_item_id_by_counter,
    get_result_okEnvelope_some decodeItemByCounterResult j _ _ hnull hres]
  rfl

theorem resolve_by_counter_redirect_stub_witness :
    resolve_item_id_by_counter (okEnvelope (.obj [("itemId", .num 42)]))
      = .ok ⟨42⟩ :=
  resolve_by_counter_redirect_stub _ 42 rfl rfl

/-- C10: a payload lacking the full `Item` shape's required fields still
resolves through the redirect stub when it carries `itemId`, whatever
additional unrecognized fields it contains: extra fields are ignored, not a
decode failure. -/
theorem redirect_ignores_unknown_fields (fields : List (String × Json))
    (n : Nat) (hitem : decodeItem (.obj fields) = none)
    (hid : decodeReqField decodeU64 fields "itemId" = some n) :
    resolve_item_id_by_counter (okEnvelope (.obj fields)) = .ok ⟨n⟩ := by
  have hres : decodeItemByCounterResult (.obj fields) = some (.redirect n) := by
    simp [decodeItemByCounterResult, hitem, decodeRedirect, hid]
  simp [resolve_item_id_by_counter,
    get_result_okEnvelope_some decodeItemByCounterResult _ _ _
      (by intro h; exact Json.noConfusion h) hres]
  rfl

theorem redirect_ignores_unknown_fields_witness :
    resolve_item_id_by_counter (okEnvelope (.obj [("itemId", .num 7),
      ("id", .num 3), ("unrecognized", .str "x"), ("extra", .bool true)]))
      = .ok ⟨7⟩ :=
  redirect_ignores_unknown_fields _ 7 rfl rfl

lemma decodeItemInstanceResult_arr (js : List Json) (l : List ItemInstance)
    (h : decodeVec decodeItemInstance (.arr js) = some l) :
    decodeItemInstanceResult (.arr js) = some (.list l) := by
  simp [decodeItemInstanceResult, h]

lemma decodeItemInstanceResult_wrapped (js : List Json) (l : List ItemInstance)
    (h : decodeVec decodeItemInstance (.arr js) = some l) :
    decodeItemInstanceResult (.obj [("instances", .arr js)])
      = some (.wrapped l) := by
  simp [decodeItemInstanceResult, decodeVec, decodeReqField, lookupField]
  simp [decodeVec] at h
  simp [h]

/-- C3: a three-element instance list `[A, B, C]` delivered in a successful
envelope yields `C` under the bare-list shape and under the wrapped-list
shape alike: both normalize to the same list, whose last element is taken. -/
theorem get_latest_instance_last_of_three (js : List Json)
    (a b c : ItemInstance)
    (h : decodeVec decodeItemInstance (.arr js) = some [a, b, c]) :
    get_latest_instance (okEnvelope (.arr js)) = .ok (some c)
      ∧ get_latest_instance (okEnvelope (.obj [("instances", .arr js)]))
        = .ok (some c) := by
  constructor
  · simp [get_latest_instance,
      get_result_okEnvelope_some decodeItemInstanceResult _ _ _
        (by intro hj; exact Json.noConfusion hj)
        (decodeItemInstanceResult_arr js [a, b, c] h)]
    rfl
  · simp [get_latest_instance,
      get_result_okEnvelope_some decodeItemInstanceResult _ _ _
        (by intro hj; exact Json.noConfusion hj)
        (decodeItemInstanceResult_wrapped js [a, b, c] h)]
    rfl

theorem get_latest_instance_last_of_three_witness :
    get_latest_instance (okEnvelope (.arr [.obj [("id", .num 1)],
      .obj [("id", .num 2)], .obj [("id", .num 3)]]))
      = .ok (some ⟨3, none, none, none⟩)
      ∧ get_latest_instance (okEnvelope (.obj [("instances",
          .arr [.obj [("id", .num 1)], .obj [("id", .num 2)],
            .obj [("id", .num 3)]])]))
        = .ok (some ⟨3, none, none, none⟩) :=
  get_latest_instance_last_of_three _
    ⟨1, none, none, none⟩ ⟨2, none, none, none⟩ ⟨3, none, none, none⟩ rfl

/-- C4: an empty instance list in a successful envelope yields the explicit
"none" result, not a failure, under both the bare-list and the wrapped-list
shape. -/
theorem get_latest_instance_empty_is_none :
    get_latest_instance (okEnvelope (.arr [])) = .ok none
      ∧ get_latest_instance (okEnvelope (.obj [("instances", .arr [])]))
        = .ok none :=
  ⟨rfl, rfl⟩

/-- C5: when the decoded envelope's `err` field is nonzero, `get_result`
fails with the service-provided message when present and the generic
unknown-error fallback otherwise, tagged with the operation label — whether
or not a `result` payload is present. Determinism across repeated identical
inputs is inherent: `get_result` is a pure function of the body and label. -/
theorem get_result_service_error (T : Type) (dec : Json → Option T)
    (body : Json) (op : String) (envelope : ApiEnvelope T)
    (hdec : decodeEnvelope dec body = some envelope)
    (herr : envelope.err ≠ 0) :
    get_result dec body op
      = .error (.serviceError op
          (envelope.message.getD "unknown error from Rollbar")) := by
  simp [get_result, hdec, herr]

theorem get_result_service_error_witness :
    get_result decodeValue (.obj [("err", .num 1), ("result", .num 5),
      ("message", .str "boom")]) "item"
      = .error (.serviceError "item" "boom") :=
  get_result_service_error Json decodeValue _ "item"
    ⟨1, some (.num 5), some "boom"⟩ rfl (by decide)

/-- C6: when the decoded envelope's `err` field is zero, a missing `result`
yields the distinct missing-result failure, tagged with the operation label
and distinguishable from any service-reported failure; a present `result`
is returned unchanged. -/
theorem get_result_missing_result_distinct (T : Type) (dec : Json → Option T)
    (body : Json) (op : String) (envelope : ApiEnvelope T)
    (hdec : decodeEnvelope dec body = some envelope)
    (herr : envelope.err = 0) :
    (envelope.result = none →
        get_result dec body op = .error (.missingResult op)
          ∧ ∀ op2 msg, RbError.missingResult op ≠ .serviceError op2 msg)
      ∧ ∀ r, envelope.result = some r → get_result dec body op = .ok r := by
  constructor
  · intro hres
    refine ⟨?_, fun op2 msg h => RbError.noConfusion h⟩
    simp [get_result, hdec, herr, hres]
  · intro r hres
    simp [get_result, hdec, herr, hres]

theorem get_result_missing_result_distinct_witness :
    get_result decodeValue (.obj [("err", .num 0)]) "item"
      = .error (.missingResult "item") :=
  (((get_result_missing_result_distinct Json decodeValue
    (.obj [("err", .num 0)]) "item" ⟨0, none, none⟩ rfl rfl).1) rfl).1

lemma decodeItem_obj (fields : List (String × Json)) :
    decodeItem (.obj fields)
      = (decodeReqField decodeU64 fields "id").bind fun id =>
        (decodeReqField decodeU64 fields "project_id").bind fun project_id =>
        (decodeReqField decodeU64 fields "counter").bind fun counter =>
        (decodeReqField decodeString fields "title").bind fun title =>
        (decodeReqField decodeString fields "status").bind fun status =>
        (decodeOptField decodeString fields "environment").bind fun environment =>
        (decodeOptField decodeU64 fields "total_occurrences").bind
          fun total_occurrences =>
        some ⟨id, project_id, counter, title, status, environment,
          total_occurrences⟩ := rfl

/-- C7: in any successfully decoded `Item`, an optional field whose key is
absent from the payload decodes to the explicit absent value `none`, which
is distinct from a present empty string or a present zero (which decode to
`some ""` and `some 0` respectively); absence never becomes a zero/empty
default. -/
theorem item_optional_fields_absent (fields : List (String × Json))
    (it : Item) (h : decodeItem (.obj fields) = some it) :
    (lookupField fields "environment" = none → it.environment = none)
      ∧ (lookupField fields "total_occurrences" = none →
          it.total_occurrences = none)
      ∧ (∀ s, lookupField fields "environment" = some (.str s) →
          it.environment = some s)
      ∧ (∀ n : Nat, (n : Int) < 2 ^ 64 →
          lookupField fields "total_occurrences" = some (.num (n : Int)) →
          it.total_occurrences = some n)
      ∧ (none : Option String) ≠ some "" ∧ (none : Option Nat) ≠ some 0 := by
  rw [decodeItem_obj] at h
  simp only [Option.bind_eq_some, Option.some.injEq] at h
  obtain ⟨i, hi, p, hp, c, hc, t, ht, s, hs, e, he, o, ho, hit⟩ := h
  subst hit
  refine ⟨?_, ?_, ?_, ?_, by simp, by simp⟩
  · intro hk; simp [decodeOptField, hk] at he; simp [he.symm]
  · intro hk; simp [decodeOptField, hk] at ho; simp [ho.symm]
  · intro s' hk; simp [decodeOptField, hk, decodeString] at he; simp [he.symm]
  · intro n hn hk
    simp [decodeOptField, hk, decodeU64, hn] at ho
    simp [ho.symm]

theorem item_optional_fields_absent_witness :
    decodeItem (.obj [("id", .num 10), ("project_id", .num 1),
      ("counter", .num 5), ("title", .str "t"), ("status", .str "open")])
      = some ⟨10, 1, 5, "t", "open", none, none⟩
      ∧ (⟨10, 1, 5, "t", "open", none, none⟩ : Item).environment = none
      ∧ (⟨10, 1, 5, "t", "open", none, none⟩ : Item).total_occurrences
        = none :=
  ⟨rfl,
    (item_optional_fields_absent [("id", .num 10), ("project_id", .num 1),
      ("counter", .num 5), ("title", .str "t"), ("status", .str "open")]
      ⟨10, 1, 5, "t", "open", none, none⟩ rfl).1 rfl,
    (item_optional_fields_absent [("id", .num 10), ("project_id", .num 1),
      ("counter", .num 5), ("title", .str "t"), ("status", .str "open")]
      ⟨10, 1, 5, "t", "open", none, none⟩ rfl).2.1 rfl⟩

/-- C8 counterexample: the claim quantifies over any integer `err` value,
but the envelope's `err` field is a Rust `u8`; at `err = 256` the body is
rejected as a decode failure instead of being parsed as an envelope. -/
theorem envelope_err_any_integer_counterexample :
    decodeEnvelope decodeValue (Json.obj [("err", Json.num 256),
      ("result", Json.num 1), ("message", Json.str "m")]) = none
      ∧ get_result decodeValue (Json.obj [("err", Json.num 256),
          ("result", Json.num 1), ("message", Json.str "m")]) "item"
        = .error (.decodeFailed "item") :=
  ⟨rfl, rfl⟩

/-- C8 (amended): for every body `{err: n, result: r, message: m}` whose
integer `n` is representable as a `u8` (`0 ≤ n < 256`), the decoder parses
the body as a generic envelope and then applies the `err == 0` /
`err != 0` policy. -/
theorem envelope_parses_u8_err (T : Type) (dec : Json → Option T)
    (n : Int) (h0 : 0 ≤ n) (h1 : n < 256) (r : Json) (v : T) (m op : String)
    (hnull : r ≠ Json.null) (hr : dec r = some v) :
    decodeEnvelope dec (.obj [("err", .num n), ("result", r),
        ("message", .str m)])
      = some ⟨n.toNat, some v, some m⟩
      ∧ get_result dec (.obj [("err", .num n), ("result", r),
            ("message", .str m)]) op
        = if n.toNat = 0 then .ok v else .error (.serviceError op m) := by
  have henv : decodeEnvelope dec (.obj [("err", .num n), ("result", r),
      ("message", .str m)]) = some ⟨n.toNat, some v, some m⟩ := by
    cases r <;>
      simp_all [decodeEnvelope, decodeReqField, decodeOptField, lookupField,
        decodeU8, decodeString]
  refine ⟨henv, ?_⟩
  by_cases hz : n.toNat = 0 <;> simp [get_result, henv, hz]

theorem envelope_parses_u8_err_witness :
    decodeEnvelope decodeValue (.obj [("err", .num 7), ("result", .num 5),
        ("message", .str "m")])
      = some ⟨(7 : Int).toNat, some (.num 5), some "m"⟩
      ∧ get_result decodeValue (.obj [("err", .num 7), ("result", .num 5),
            ("message", .str "m")]) "item"
        = if (7 : Int).toNat = 0 then .ok (.num 5)
          else .error (.serviceError "item" "m") :=
  envelope_parses_u8_err Json decodeValue 7 (by decide) (by decide)
    (.num 5) (.num 5) "m" "item" (by intro h; exact Json.noConfusion h) rfl

lemma decodeItemInstance_obj (fields : List (String × Json)) :
    decodeItemInstance (.obj fields)
      = (decodeReqField decodeU64 fields "id").bind fun id =>
        (decodeOptField decodeU64 fields "timestamp").bind fun timestamp =>
        (decodeOptField decodeValue fields "body").bind fun body =>
        (decodeOptField decodeValue fields "data").bind fun data =>
        some ⟨id, timestamp, body, data⟩ := rfl

lemma decodeOptField_value_isSome (fields : List (String × Json))
    (key : String) (b : Option Json)
    (h : decodeOptField decodeValue fields key = some b) :
    b.isSome ↔ ∃ v, lookupField fields key = some v ∧ v ≠ Json.null := by
  unfold decodeOptField at h
  rcases hl : lookupField fields key with _ | v
  · rw [hl] at h
    simp only [Option.some.injEq] at h
    subst h
    simp [hl]
  · cases v <;> rw [hl] at h <;> simp [decodeValue] at h <;>
      subst h <;> simp [hl]

/-- C9 counterexample: the two free-form payload fields are not mutually
exclusive — the payload `{id: 1, body: 2, data: 3}` decodes successfully
with both `body` and `data` present. -/
theorem instance_fields_exclusive_counterexample :
    decodeItemInstance (Json.obj [("id", Json.num 1), ("body", Json.num 2),
        ("data", Json.num 3)])
      = some ⟨1, none, some (Json.num 2), some (Json.num 3)⟩
      ∧ ¬ (∀ j inst, decodeItemInstance j = some inst →
            inst.body = none ∨ inst.data = none) := by
  refine ⟨rfl, fun hall => ?_⟩
  rcases hall (Json.obj [("id", Json.num 1), ("body", Json.num 2),
      ("data", Json.num 3)])
      ⟨1, none, some (Json.num 2), some (Json.num 3)⟩ rfl with h | h <;>
    exact Option.noConfusion h

/-- C9 (amended): the two free-form payload fields of a decoded
`ItemInstance` are independent optionals, not mutually exclusive: each is
present in the decoded instance exactly when its key is present with a
non-null value in the payload, so an instance may carry neither, either
one, or both. -/
theorem instance_fields_independent (fields : List (String × Json))
    (inst : ItemInstance) (h : decodeItemInstance (.obj fields) = some inst) :
    (inst.body.isSome ↔
        ∃ v, lookupField fields "body" = some v ∧ v ≠ Json.null)
      ∧ (inst.data.isSome ↔
          ∃ v, lookupField fields "data" = some v ∧ v ≠ Json.null) := by
  rw [decodeItemInstance_obj] at h
  simp only [Option.bind_eq_some, Option.some.injEq] at h
  obtain ⟨i, hi, ts, hts, b, hb, d, hd, hinst⟩ := h
  subst hinst
  exact ⟨decodeOptField_value_isSome fields "body" b hb,
    decodeOptField_value_isSome fields "data" d hd⟩

theorem instance_fields_independent_witness :
    ((⟨1, none, some (Json.num 2), some (Json.num 3)⟩ : ItemInstance).body.isSome ↔
        ∃ v, lookupField [("id", Json.num 1), ("body", Json.num 2),
          ("data", Json.num 3)] "body" = some v ∧ v ≠ Json.null)
      ∧ ((⟨1, none, some (Json.num 2), some (Json.num 3)⟩ : ItemInstance).data.isSome ↔
          ∃ v, lookupField [("id", Json.num 1), ("body", Json.num 2),
            ("data", Json.num 3)] "data" = some v ∧ v ≠ Json.null) :=
  instance_fields_independent [("id", Json.num 1), ("body", Json.num 2),
    ("data", Json.num 3)] ⟨1, none, some (Json.num 2), some (Json.num 3)⟩ rfl
